import Mathlib

/-!
# Verification of the dog-poo-detector core pipeline

A shallow embedding of the repository's core modules and proofs of the
specification's claims about them:

* `src/backend/poop_tracker.py` — deposit lifecycle manager (`PoopTracker`);
* `src/backend/event_detector.py` — behavioral event detector (`EventDetector`);
* `src/backend/state_manager.py` — alert aggregator (`StateManager`).

Modelling conventions:

* Pixel coordinates and thresholds are rationals (`ℚ`); the Python source
  uses floats, and all claims are about exact geometric and counting
  behavior, not rounding.
* `datetime.now()` is modelled by an explicit `now` argument threaded into
  every operation that reads the clock; timestamps are stored as given.
* `uuid.uuid4()` is modelled by a fresh-id counter (`next_id`) threaded
  through the tracker state: ids of newly created deposits are fresh.
* Python string statuses "pending" / "active" / "cleaned" become the
  inductive `Status`; the event names "poop_detected" / "poop_confirmed" /
  "poop_cleaned" passed to `event_callback` become `EventKind`.
* `((dx)**2 + (dy)**2) ** 0.5 < t` (a Euclidean-distance comparison with a
  nonnegative bound `t`) is embedded as `dx^2 + dy^2 < t^2`, which is
  equivalent over the reals; this keeps the tracker computable.
-/

/-- An axis-aligned bounding box `(x1, y1, x2, y2)`, as the tuples the
Python code passes around. -/
structure Box where
  x1 : ℚ
  y1 : ℚ
  x2 : ℚ
  y2 : ℚ
deriving DecidableEq, Repr

/-- `detector.Detection`: one frame's classified bounding-box observation. -/
structure Detection where
  class_name : String
  confidence : ℚ
  bbox : Box
deriving DecidableEq, Repr

/-- `Detection.center`: center point of the bounding box. -/
def Detection.center (d : Detection) : ℚ × ℚ :=
  ((d.bbox.x1 + d.bbox.x2) / 2, (d.bbox.y1 + d.bbox.y2) / 2)

/-- `Detection.width`. -/
def Detection.width (d : Detection) : ℚ := d.bbox.x2 - d.bbox.x1

/-- `Detection.height`. -/
def Detection.height (d : Detection) : ℚ := d.bbox.y2 - d.bbox.y1

/-- `Detection.aspect_ratio`: height/width, 0 if width ≤ 0
(Python: `self.height / self.width if self.width > 0 else 0`). -/
def Detection.aspect_ratio (d : Detection) : ℚ :=
  if 0 < d.width then d.height / d.width else 0

/-- Deposit status, the Python strings "pending" | "active" | "cleaned". -/
inductive Status where
  | pending
  | active
  | cleaned
deriving DecidableEq, Repr

/-- The forward rank of a status in the lifecycle order
pending (0) → active (1) → cleaned (2). -/
def Status.rank : Status → Nat
  | .pending => 0
  | .active => 1
  | .cleaned => 2

/-- `poop_tracker.PoopInstance`: a single tracked deposit. Field defaults
mirror the Python dataclass defaults. -/
structure PoopInstance where
  id : Nat
  location : ℚ × ℚ := (0, 0)
  bbox : Box := ⟨0, 0, 0, 0⟩
  first_seen : Nat
  last_seen : Nat
  status : Status := .pending
  deposited_by : Option Nat := none
  missing_frames : Nat := 0
  cleanup_candidate_frames : Nat := 0
deriving DecidableEq, Repr

/-- The event names handed to `event_callback` by `PoopTracker.update`. -/
inductive EventKind where
  | poop_detected
  | poop_confirmed
  | poop_cleaned
deriving DecidableEq, Repr

/-- One `event_callback(kind, payload)` invocation: the payload dict always
carries `id` and `location`, and `bbox` for "poop_detected". -/
structure Event where
  kind : EventKind
  id : Nat
  location : ℚ × ℚ
  bbox : Option Box := none
deriving DecidableEq, Repr

/-- The `tracking` configuration read in `PoopTracker.__init__`. -/
structure TrackerConfig where
  iou_threshold : ℚ
  stale_threshold : Nat
  cleanup_confirm_frames : Nat
deriving DecidableEq, Repr

/-- The mutable state of a `PoopTracker`. -/
structure TrackerState where
  active_poops : List PoopInstance
  cleaned_count : Nat
  total_deposits : Nat
  next_id : Nat
deriving DecidableEq, Repr

namespace PoopTracker

/-- `PoopTracker._calculate_iou`: Intersection over Union of two boxes; 0
on empty overlap (`x2_i < x1_i or y2_i < y1_i`) and when the union area is
not positive. -/
def calculate_iou (bbox1 bbox2 : Box) : ℚ :=
  let x1_i := max bbox1.x1 bbox2.x1
  let y1_i := max bbox1.y1 bbox2.y1
  let x2_i := min bbox1.x2 bbox2.x2
  let y2_i := min bbox1.y2 bbox2.y2
  if x2_i < x1_i ∨ y2_i < y1_i then 0
  else
    let intersection := (x2_i - x1_i) * (y2_i - y1_i)
    let area1 := (bbox1.x2 - bbox1.x1) * (bbox1.y2 - bbox1.y1)
    let area2 := (bbox2.x2 - bbox2.x1) * (bbox2.y2 - bbox2.y1)
    let union := area1 + area2 - intersection
    if 0 < union then intersection / union else 0

/-- Area of a box, `(x2 - x1) * (y2 - y1)`. -/
def boxArea (b : Box) : ℚ := (b.x2 - b.x1) * (b.y2 - b.y1)

/-- The intersection contribution the source computes: 0 past the empty
overlap early return, the clipped product otherwise. -/
def interArea (bbox1 bbox2 : Box) : ℚ :=
  if min bbox1.x2 bbox2.x2 < max bbox1.x1 bbox2.x1
      ∨ min bbox1.y2 bbox2.y2 < max bbox1.y1 bbox2.y1 then 0
  else (min bbox1.x2 bbox2.x2 - max bbox1.x1 bbox2.x1)
      * (min bbox1.y2 bbox2.y2 - max bbox1.y1 bbox2.y1)

/-- The union quantity `area1 + area2 - intersection` of the source. -/
def unionArea (bbox1 bbox2 : Box) : ℚ :=
  boxArea bbox1 + boxArea bbox2 - interArea bbox1 bbox2

/-- `PoopTracker._is_human_nearby`: is some person detection's center
within `threshold` pixels of the deposit's location?  The source compares
`((dx)**2 + (dy)**2)**0.5 < threshold`; with `threshold = 100 ≥ 0` this is
`dx^2 + dy^2 < threshold^2`. -/
def is_human_nearby (poop : PoopInstance) (person_detections : List Detection)
    (threshold : ℚ := 100) : Bool :=
  person_detections.any fun person =>
    decide ((poop.location.1 - person.center.1) ^ 2
      + (poop.location.2 - person.center.2) ^ 2 < threshold ^ 2)

/-- The body of the matching loop over `enumerate(poop_detections)` for one
deposit: the highest-IoU unclaimed detection whose IoU beats both the best
so far and the threshold (`iou > best_iou and iou > self.iou_threshold`).
`idx` is the index of the list's head, `best_iou` and `best` the loop
accumulators (initially `0` and `None`). -/
def bestMatchAux (iou_threshold : ℚ) (pbox : Box) :
    List Detection → Nat → List Nat → ℚ → Option (Nat × Detection) →
      Option (Nat × Detection)
  | [], _, _, _, best => best
  | d :: rest, idx, matched, best_iou, best =>
    if idx ∈ matched then
      bestMatchAux iou_threshold pbox rest (idx + 1) matched best_iou best
    else
      let iou := calculate_iou pbox d.bbox
      if best_iou < iou ∧ iou_threshold < iou then
        bestMatchAux iou_threshold pbox rest (idx + 1) matched iou (some (idx, d))
      else
        bestMatchAux iou_threshold pbox rest (idx + 1) matched best_iou best

/-- The matching step for one deposit (`best_detection` after the inner
loop of `PoopTracker.update`). -/
def bestMatch (iou_threshold : ℚ) (pbox : Box) (poop_detections : List Detection)
    (matched : List Nat) : Option (Nat × Detection) :=
  bestMatchAux iou_threshold pbox poop_detections 0 matched 0 none

/-- The matched branch of `PoopTracker.update` for one deposit: refresh
box/location/last_seen, zero both counters, promote pending to active and
emit "poop_confirmed". -/
def matchedUpdate (now : Nat) (poop : PoopInstance) (detection : Detection) :
    PoopInstance × List Event :=
  let p1 := { poop with
    bbox := detection.bbox
    location := detection.center
    last_seen := now
    missing_frames := 0
    cleanup_candidate_frames := 0 }
  if poop.status = .pending then
    ({ p1 with status := .active },
      [{ kind := .poop_confirmed, id := poop.id, location := detection.center }])
  else
    (p1, [])

/-- The unmatched branch of `PoopTracker.update` for one deposit: bump
`missing_frames`; with a person nearby bump `cleanup_candidate_frames` and,
once it reaches `cleanup_confirm_frames`, mark cleaned, count one cleanup
and emit "poop_cleaned"; with nobody nearby reset the candidate counter.
Returns the updated deposit, the emitted events and the `cleaned_count`
increment. -/
def unmatchedUpdate (cleanup_confirm_frames : Nat) (person_detections : List Detection)
    (poop : PoopInstance) : PoopInstance × List Event × Nat :=
  let p1 := { poop with missing_frames := poop.missing_frames + 1 }
  if is_human_nearby poop person_detections then
    let p2 := { p1 with cleanup_candidate_frames := p1.cleanup_candidate_frames + 1 }
    if cleanup_confirm_frames ≤ p2.cleanup_candidate_frames then
      ({ p2 with status := .cleaned },
        [{ kind := .poop_cleaned, id := poop.id, location := poop.location }], 1)
    else
      (p2, [], 0)
  else
    ({ p1 with cleanup_candidate_frames := 0 }, [], 0)

/-- The `for poop in self.active_poops` loop of `PoopTracker.update`:
returns the updated deposits (in order), the final `matched_indices`, the
emitted events and the total `cleaned_count` increment. -/
def processPoops (iou_threshold : ℚ) (cleanup_confirm_frames : Nat) (now : Nat)
    (poop_detections person_detections : List Detection) :
    List PoopInstance → List Nat → List PoopInstance × List Nat × List Event × Nat
  | [], matched => ([], matched, [], 0)
  | poop :: rest, matched =>
    match bestMatch iou_threshold poop.bbox poop_detections matched with
    | some (i, detection) =>
      let m := matchedUpdate now poop detection
      let r := processPoops iou_threshold cleanup_confirm_frames now
        poop_detections person_detections rest (i :: matched)
      (m.1 :: r.1, r.2.1, m.2 ++ r.2.2.1, r.2.2.2)
    | none =>
      let u := unmatchedUpdate cleanup_confirm_frames person_detections poop
      let r := processPoops iou_threshold cleanup_confirm_frames now
        poop_detections person_detections rest matched
      (u.1 :: r.1, r.2.1, u.2.1 ++ r.2.2.1, u.2.2 + r.2.2.2)

/-- The `for i, detection in enumerate(poop_detections)` creation loop:
every detection whose index is not in `matched_indices` becomes a new
active deposit with a fresh id, one "poop_detected" event and one
`total_deposits` increment.  Returns the new deposits, the events and the
number created. -/
def createPoops (now : Nat) :
    List Detection → Nat → List Nat → Nat → List PoopInstance × List Event × Nat
  | [], _, _, _ => ([], [], 0)
  | d :: rest, idx, matched, next_id =>
    if idx ∈ matched then
      createPoops now rest (idx + 1) matched next_id
    else
      let new_poop : PoopInstance :=
        { id := next_id, location := d.center, bbox := d.bbox,
          first_seen := now, last_seen := now, status := .active }
      let r := createPoops now rest (idx + 1) matched (next_id + 1)
      (new_poop :: r.1,
        { kind := .poop_detected, id := new_poop.id, location := new_poop.location,
          bbox := some new_poop.bbox } :: r.2.1,
        r.2.2 + 1)

/-- The `for event_location in pooping_events` loop: every event point
becomes a new pending deposit (dataclass defaults: bbox `(0,0,0,0)`, both
counters 0), with no event and no `total_deposits` increment. -/
def createPendings (now : Nat) : List (ℚ × ℚ) → Nat → List PoopInstance
  | [], _ => []
  | loc :: rest, next_id =>
    { id := next_id, location := loc, first_seen := now, last_seen := now,
      status := .pending } :: createPendings now rest (next_id + 1)

/-- The prune predicate of `PoopTracker.update`: a deposit stays live iff
`p.status != "cleaned" and p.missing_frames < self.stale_threshold`. -/
def keepPoop (stale_threshold : Nat) (p : PoopInstance) : Bool :=
  p.status ≠ Status.cleaned ∧ p.missing_frames < stale_threshold

/-- Everything `PoopTracker.update` computes before the final prune: the
full deposit list (updated ++ newly detected ++ new pendings), the emitted
events, the `cleaned_count` increment and the number of new direct
deposits. -/
def updateCore (cfg : TrackerConfig) (st : TrackerState) (now : Nat)
    (detections : List Detection) (pooping_events : List (ℚ × ℚ)) :
    List PoopInstance × List Event × Nat × Nat :=
  let poop_detections := detections.filter fun d => d.class_name == "poop"
  let person_detections := detections.filter fun d => d.class_name == "person"
  let pr := processPoops cfg.iou_threshold cfg.cleanup_confirm_frames now
    poop_detections person_detections st.active_poops []
  let cr := createPoops now poop_detections 0 pr.2.1 st.next_id
  let pendings := createPendings now pooping_events (st.next_id + cr.2.2)
  (pr.1 ++ cr.1 ++ pendings, pr.2.2.1 ++ cr.2.1, pr.2.2.2, cr.2.2)

/-- `PoopTracker.update`: one full tracking cycle over the frame's
detections and behavioral event points, returning the new tracker state
and the events passed to `event_callback`, in emission order. -/
def update (cfg : TrackerConfig) (st : TrackerState) (now : Nat)
    (detections : List Detection) (pooping_events : List (ℚ × ℚ)) :
    TrackerState × List Event :=
  let core := updateCore cfg st now detections pooping_events
  ({ active_poops := core.1.filter (keepPoop cfg.stale_threshold),
     cleaned_count := st.cleaned_count + core.2.2.1,
     total_deposits := st.total_deposits + core.2.2.2,
     next_id := st.next_id + core.2.2.2 + pooping_events.length }, core.2.1)

/-- The dict returned by `PoopTracker.get_state`. -/
structure Snapshot where
  active_poops : List PoopInstance
  pending_poops : List PoopInstance
  cleaned_count : Nat
  total_deposits : Nat
deriving DecidableEq, Repr

/-- `PoopTracker.get_state`: partition live deposits into active and
pending lists, with the cumulative counters. -/
def get_state (st : TrackerState) : Snapshot :=
  { active_poops := st.active_poops.filter fun p => p.status == Status.active
    pending_poops := st.active_poops.filter fun p => p.status == Status.pending
    cleaned_count := st.cleaned_count
    total_deposits := st.total_deposits }

end PoopTracker

/-! ## `event_detector.py`: `DogTrack` and `EventDetector`

The one place the embedding leaves the rationals is
`DogTrack.get_average_movement`: the source sums the Euclidean lengths
`((dx)**2 + (dy)**2) ** 0.5` of consecutive steps, so the average lives in
`ℝ` (`Real.sqrt`), with `float('inf')` — the "movement unknown" sentinel
for tracks of fewer than 2 samples — embedded as `⊤ : WithTop ℝ`.  The
nearest-neighbor matching of `_update_tracks` compares two such square
roots and one against the constant gate 100, so there the monotone
`Real.sqrt` is eliminated: squared distances over `ℚ` are compared
instead, with `float('inf')` as `⊤ : WithTop ℚ`. -/

/-- One entry of `DogTrack.positions`: the dict
`{'center', 'bbox', 'aspect_ratio', 'timestamp'}` appended by
`add_position`. -/
structure TrackPos where
  center : ℚ × ℚ
  bbox : Box
  aspect_ratio : ℚ
  timestamp : ℚ
deriving DecidableEq, Repr

/-- `event_detector.DogTrack`: a tracked dog. -/
structure DogTrack where
  positions : List TrackPos
  last_update : ℚ
deriving DecidableEq, Repr

namespace DogTrack

/-- Appending to `deque(maxlen=90)`: the oldest sample is evicted once the
buffer is full. -/
def dequeAppend (l : List TrackPos) (x : TrackPos) : List TrackPos :=
  if l.length < 90 then l ++ [x] else l.tail ++ [x]

/-- `DogTrack.add_position`. -/
def add_position (t : DogTrack) (detection : Detection) (now : ℚ) : DogTrack :=
  { positions := dequeAppend t.positions
      { center := detection.center, bbox := detection.bbox,
        aspect_ratio := detection.aspect_ratio, timestamp := now }
    last_update := now }

/-- `DogTrack.__init__`: a track is created from a detection with one
initial sample. -/
def init (detection : Detection) (now : ℚ) : DogTrack :=
  add_position { positions := [], last_update := now } detection now

/-- `DogTrack.is_stale`: not updated within `max_age_seconds`. -/
def is_stale (t : DogTrack) (now : ℚ) (max_age_seconds : ℚ := 1) : Bool :=
  decide (max_age_seconds < now - t.last_update)

/-- One step's Euclidean length in `get_average_movement`:
`((x2 - x1)**2 + (y2 - y1)**2) ** 0.5`. -/
noncomputable def stepDist (p q : ℚ × ℚ) : ℝ :=
  Real.sqrt (((q.1 - p.1) ^ 2 + (q.2 - p.2) ^ 2 : ℚ) : ℝ)

/-- The `total_movement` accumulation over consecutive samples. -/
noncomputable def totalMovement : List TrackPos → ℝ
  | a :: b :: rest => stepDist a.center b.center + totalMovement (b :: rest)
  | _ => 0

/-- `DogTrack.get_average_movement`: `float('inf')` (the "movement
unknown" sentinel, here `⊤`) for fewer than 2 samples, otherwise the mean
step length. -/
noncomputable def get_average_movement (t : DogTrack) : WithTop ℝ :=
  if t.positions.length < 2 then ⊤
  else ((totalMovement t.positions / (t.positions.length - 1 : ℕ) : ℝ) : WithTop ℝ)

/-- `DogTrack.get_average_aspect_ratio`: 1.0 on an empty buffer, else the
mean sampled aspect ratio. -/
def get_average_aspect_ratio (t : DogTrack) : ℚ :=
  if t.positions = [] then 1
  else (t.positions.map (·.aspect_ratio)).sum / t.positions.length

/-- `DogTrack.get_track_duration`: 0.0 for fewer than 2 samples, else last
minus first timestamp. -/
def get_track_duration (t : DogTrack) : ℚ :=
  match t.positions with
  | [] => 0
  | p :: rest =>
    if rest = [] then 0
    else ((p :: rest).getLast (by simp)).timestamp - p.timestamp

/-- `DogTrack.get_ground_location`: bottom-center of the most recent box,
`(0, 0)` on an empty buffer. -/
def get_ground_location (t : DogTrack) : ℚ × ℚ :=
  match t.positions.getLast? with
  | none => (0, 0)
  | some p => ((p.bbox.x1 + p.bbox.x2) / 2, p.bbox.y2)

end DogTrack

/-- `event_detector.EventDetector`: configuration and mutable track state.
`movement_threshold` is set to 5.0 by `__init__` (`EventDetector.init`);
the two other thresholds come from the `pooping_detection` config. -/
structure EventDetector where
  stationary_threshold : ℚ
  aspect_ratio_threshold : ℚ
  movement_threshold : ℝ
  dog_tracks : List (Nat × DogTrack)
  next_track_id : Nat

namespace EventDetector

/-- `EventDetector.__init__`. -/
def init (stationary_threshold aspect_ratio_threshold : ℚ) : EventDetector :=
  { stationary_threshold := stationary_threshold
    aspect_ratio_threshold := aspect_ratio_threshold
    movement_threshold := 5
    dog_tracks := []
    next_track_id := 0 }

/-- Squared Euclidean distance: `EventDetector._distance` squared (the
source's `distance < bound` comparisons against nonnegative bounds become
squared comparisons; `Real.sqrt` is strictly monotone on squares). -/
def dist2 (point1 point2 : ℚ × ℚ) : ℚ :=
  (point2.1 - point1.1) ^ 2 + (point2.2 - point1.2) ^ 2

/-- The inner loop of `_update_tracks` for one track: the nearest unclaimed
detection, accepted only under the 100-pixel gate
(`distance < best_distance and distance < 100`), on squared distances with
`best_distance` starting at `float('inf')` (`⊤`). -/
def bestDogMatch (last_center : ℚ × ℚ) :
    List Detection → Nat → List Nat → WithTop ℚ → Option Nat → Option Nat
  | [], _, _, _, best => best
  | d :: rest, idx, matchedDets, best_d2, best =>
    if idx ∈ matchedDets then
      bestDogMatch last_center rest (idx + 1) matchedDets best_d2 best
    else
      let d2 : WithTop ℚ := (dist2 last_center d.center : ℚ)
      if d2 < best_d2 ∧ d2 < ((100 ^ 2 : ℚ) : WithTop ℚ) then
        bestDogMatch last_center rest (idx + 1) matchedDets d2 (some idx)
      else
        bestDogMatch last_center rest (idx + 1) matchedDets best_d2 best

/-- The per-track half of `_update_tracks`: match each existing track (in
order) to its nearest unclaimed detection and append the sample.  A track
with an empty buffer is skipped (`if not track.positions: continue`).
Returns the updated tracks and the claimed detection indices. -/
def matchTracks (now : ℚ) (dog_detections : List Detection) :
    List (Nat × DogTrack) → List Nat → List (Nat × DogTrack) × List Nat
  | [], matchedDets => ([], matchedDets)
  | (tid, track) :: rest, matchedDets =>
    match track.positions.getLast? with
    | none =>
      let r := matchTracks now dog_detections rest matchedDets
      ((tid, track) :: r.1, r.2)
    | some lastPos =>
      match bestDogMatch lastPos.center dog_detections 0 matchedDets ⊤ none with
      | some i =>
        let track' :=
          match dog_detections.get? i with
          | some d => track.add_position d now
          | none => track
        let r := matchTracks now dog_detections rest (i :: matchedDets)
        ((tid, track') :: r.1, r.2)
      | none =>
        let r := matchTracks now dog_detections rest matchedDets
        ((tid, track) :: r.1, r.2)

/-- The creation half of `_update_tracks`: each unclaimed detection spawns
a new track under the next fresh id. -/
def spawnTracks (now : ℚ) :
    List Detection → Nat → List Nat → Nat → List (Nat × DogTrack) × Nat
  | [], _, _, next_track_id => ([], next_track_id)
  | d :: rest, idx, matchedDets, next_track_id =>
    if idx ∈ matchedDets then
      spawnTracks now rest (idx + 1) matchedDets next_track_id
    else
      let r := spawnTracks now rest (idx + 1) matchedDets (next_track_id + 1)
      ((next_track_id, DogTrack.init d now) :: r.1, r.2)

/-- `EventDetector._update_tracks`: nearest-neighbor matching then new
track creation. -/
def update_tracks (ed : EventDetector) (now : ℚ) (dog_detections : List Detection) :
    EventDetector :=
  let mr := matchTracks now dog_detections ed.dog_tracks []
  let sr := spawnTracks now dog_detections 0 mr.2 ed.next_track_id
  { ed with dog_tracks := mr.1 ++ sr.1, next_track_id := sr.2 }

/-- `EventDetector._is_pooping`: the three behavioral gates, each an early
`return False` in the source. -/
noncomputable def is_pooping (ed : EventDetector) (track : DogTrack) : Bool :=
  if track.get_track_duration < ed.stationary_threshold then false
  else if (ed.movement_threshold : WithTop ℝ) < track.get_average_movement then false
  else if ed.aspect_ratio_threshold < track.get_average_aspect_ratio then false
  else true

/-- The event-collection loop of `EventDetector.process`: one ground
location per track that `_is_pooping` accepts, in track order. -/
noncomputable def collectEvents (ed : EventDetector) (tracks : List (Nat × DogTrack)) :
    List (ℚ × ℚ) :=
  tracks.filterMap fun p =>
    if ed.is_pooping p.2 then some p.2.get_ground_location else none

/-- `EventDetector.process`: filter dog detections, update tracks, collect
pooping events, prune stale tracks.  Returns the new detector state and
the emitted ground locations. -/
noncomputable def process (ed : EventDetector) (now : ℚ) (detections : List Detection) :
    EventDetector × List (ℚ × ℚ) :=
  let dog_detections := detections.filter fun d => d.class_name == "dog"
  let ed1 := update_tracks ed now dog_detections
  let events := collectEvents ed1 ed1.dog_tracks
  let ed2 := { ed1 with
    dog_tracks := ed1.dog_tracks.filter fun p => !(p.2.is_stale now) }
  (ed2, events)

end EventDetector



/-! ## `state_manager.py`: `StateManager` -/

/-- One alert produced by `StateManager.update` (`_alert_new_poop`,
`_alert_cleanup`, `_alert_aged_poop`). -/
inductive Alert where
  | new_poop (id : Nat)
  | cleanup (count : Nat)
  | aged (id : Nat)
deriving DecidableEq, Repr

/-- The `self.last_state` snapshot `StateManager.update` stores at the end
of every call (initially the empty dict, modelled as `none`). -/
structure SMLast where
  active_count : Nat
  cleaned_count : Nat
  total_deposits : Nat
deriving DecidableEq, Repr

/-- `state_manager.StateManager`: alert toggles, aged threshold and the
state carried across calls. -/
structure StateManager where
  alert_new_poop : Bool
  alert_cleanup : Bool
  aged_minutes : ℚ
  known_poop_ids : List Nat
  last_state : Option SMLast
deriving DecidableEq, Repr

namespace StateManager

/-- `StateManager.__init__` from the `alerts` config. -/
def init (new_poop cleanup : Bool) (aged_minutes : ℚ) : StateManager :=
  { alert_new_poop := new_poop, alert_cleanup := cleanup,
    aged_minutes := aged_minutes, known_poop_ids := [], last_state := none }

/-- The id set `{poop.id for poop in active_poops}` minus the already-known
ids: one new-poop alert fires per element (and each is then remembered). -/
def newIds (sm : StateManager) (active_poops : List PoopInstance) : List Nat :=
  ((active_poops.map (·.id)).dedup).filter fun i => decide (i ∉ sm.known_poop_ids)

/-- The `cleaned_count` value `self.last_state.get('cleaned_count', 0)`
reads back. -/
def prevCleaned (sm : StateManager) : Nat :=
  (sm.last_state.map (·.cleaned_count)).getD 0

/-- The aged-deposit alerts: one per active deposit whose age in minutes is
at least `aged_minutes`, every call (level-triggered). -/
def agedAlerts (sm : StateManager) (now : ℚ) (active_poops : List PoopInstance) :
    List Alert :=
  active_poops.filterMap fun p =>
    if sm.aged_minutes ≤ (now - (p.first_seen : ℚ)) / 60 then some (Alert.aged p.id)
    else none

/-- `StateManager.update`: one new-deposit alert per active-deposit id not
yet in `known_poop_ids` (when configured on, and those ids are then
remembered), one cleanup alert carrying the positive `cleaned_count` delta
since the last call (when configured on), and one aged alert per active
deposit at least `aged_minutes` old — then the `last_state` snapshot is
replaced.  `now` is the clock in the tracker's time unit (seconds). -/
def update (sm : StateManager) (now : ℚ) (tracker_state : PoopTracker.Snapshot) :
    StateManager × List Alert :=
  let active_poops := tracker_state.active_poops
  let cleaned_count := tracker_state.cleaned_count
  let newAlerts :=
    if sm.alert_new_poop then List.map Alert.new_poop (newIds sm active_poops) else []
  let known :=
    if sm.alert_new_poop then sm.known_poop_ids ++ newIds sm active_poops
    else sm.known_poop_ids
  let cleanupAlerts :=
    if sm.alert_cleanup then
      if prevCleaned sm < cleaned_count then [Alert.cleanup (cleaned_count - prevCleaned sm)]
      else []
    else []
  ({ sm with
      known_poop_ids := known
      last_state := some
        { active_count := active_poops.length, cleaned_count := cleaned_count,
          total_deposits := tracker_state.total_deposits } },
    newAlerts ++ cleanupAlerts ++ agedAlerts sm now active_poops)

end StateManager

/-- The id carried by a new-poop alert, `none` for the other kinds. -/
def Alert.newPoopId : Alert → Option Nat
  | .new_poop i => some i
  | _ => none

/-- The count carried by a cleanup alert, `none` for the other kinds. -/
def Alert.cleanupCount : Alert → Option Nat
  | .cleanup c => some c
  | _ => none

/-! ## Concrete inputs used by the counterexamples and witnesses -/

/-- Concrete input for the C2 counterexample: cleanup confirmed after a
single frame. -/
def c2cfg : TrackerConfig :=
  { iou_threshold := 1 / 2, stale_threshold := 5, cleanup_confirm_frames := 1 }

/-- A behaviorally-inferred (pending, zero-box) deposit at the origin. -/
def c2dep : PoopInstance :=
  { id := 0, location := (0, 0), bbox := ⟨0, 0, 0, 0⟩, first_seen := 0, last_seen := 0,
    status := .pending, deposited_by := none, missing_frames := 0,
    cleanup_candidate_frames := 0 }

/-- Tracker state holding only the pending deposit. -/
def c2st : TrackerState :=
  { active_poops := [c2dep], cleaned_count := 0, total_deposits := 0, next_id := 1 }

/-- A person detection whose box is centered on the deposit. -/
def c2person : Detection :=
  { class_name := "person", confidence := 1, bbox := ⟨-1, -1, 1, 1⟩ }

/-- Concrete input for the C4 counterexample: staleness threshold 1. -/
def c4cfg : TrackerConfig :=
  { iou_threshold := 1 / 2, stale_threshold := 1, cleanup_confirm_frames := 5 }

/-- An active, visually-confirmed deposit. -/
def c4dep : PoopInstance :=
  { id := 0, location := (50, 50), bbox := ⟨40, 40, 60, 60⟩, first_seen := 0,
    last_seen := 0, status := .active, deposited_by := none, missing_frames := 0,
    cleanup_candidate_frames := 0 }

/-- Tracker state holding only that active deposit. -/
def c4st : TrackerState :=
  { active_poops := [c4dep], cleaned_count := 0, total_deposits := 1, next_id := 1 }

/-- Alert-aggregator state for the C10 counterexample: both alerts on,
nothing seen yet. -/
def c10sm : StateManager :=
  { alert_new_poop := true, alert_cleanup := true, aged_minutes := 9999,
    known_poop_ids := [], last_state := none }

/-- A pending deposit with id 0. -/
def c10pending : PoopInstance :=
  { id := 0, location := (0, 0), bbox := ⟨0, 0, 0, 0⟩, first_seen := 0, last_seen := 0,
    status := .pending, deposited_by := none, missing_frames := 0,
    cleanup_candidate_frames := 0 }

/-- A snapshot whose only deposit is pending. -/
def c10snap : PoopTracker.Snapshot :=
  { active_poops := [], pending_poops := [c10pending], cleaned_count := 0,
    total_deposits := 0 }

namespace EventDetector

lemma is_pooping_iff (ed : EventDetector) (t : DogTrack) :
    is_pooping ed t = true ↔
      (ed.stationary_threshold ≤ t.get_track_duration
        ∧ t.get_average_movement ≤ (ed.movement_threshold : WithTop ℝ)
        ∧ t.get_average_aspect_ratio ≤ ed.aspect_ratio_threshold) := by
  unfold is_pooping
  split_ifs with h1 h2 h3
  · simp only [false_iff]
    exact fun h => absurd h.1 (not_le.mpr h1)
  · simp only [false_iff]
    exact fun h => absurd h.2.1 (not_le.mpr h2)
  · simp only [false_iff]
    exact fun h => absurd h.2.2 (not_le.mpr h3)
  · simp only [true_iff]
    exact ⟨not_lt.mp h1, not_lt.mp h2, not_lt.mp h3⟩

lemma get_average_movement_sentinel (t : DogTrack) (h : t.positions.length < 2) :
    t.get_average_movement = ⊤ := by
  unfold DogTrack.get_average_movement
  rw [if_pos h]

lemma not_pooping_of_short (ed : EventDetector) (t : DogTrack)
    (h : t.positions.length < 2) : is_pooping ed t = false := by
  unfold is_pooping
  split_ifs with h1 h2 h3
  · rfl
  · rfl
  · rfl
  · exfalso
    apply h2
    rw [get_average_movement_sentinel t h]
    exact WithTop.coe_lt_top _

lemma filterMap_if_eq_filter_map {α β : Type _} (q : α → Bool) (g : α → β) :
    ∀ l : List α,
      (l.filterMap fun a => if q a then some (g a) else none) = (l.filter q).map g := by
  intro l
  induction l with
  | nil => rfl
  | cons a rest ih =>
    by_cases h : q a
    · simp [List.filterMap_cons, List.filter_cons, h, ih]
    · simp [List.filterMap_cons, List.filter_cons, h, ih]

lemma collectEvents_eq (ed : EventDetector) (tracks : List (Nat × DogTrack)) :
    collectEvents ed tracks
      = (tracks.filter fun p => is_pooping ed p.2).map fun p => p.2.get_ground_location :=
  filterMap_if_eq_filter_map _ _ tracks

end EventDetector

namespace StateManager

lemma map_new_poop_newPoopId (ids : List Nat) :
    (ids.map Alert.new_poop).filterMap Alert.newPoopId = ids := by
  induction ids with
  | nil => rfl
  | cons i rest ih => simp [List.filterMap_cons, Alert.newPoopId, ih]

lemma map_new_poop_cleanupCount (ids : List Nat) :
    (ids.map Alert.new_poop).filterMap Alert.cleanupCount = [] := by
  induction ids with
  | nil => rfl
  | cons i rest ih => simp [List.filterMap_cons, Alert.cleanupCount, ih]

lemma agedAlerts_newPoopId (sm : StateManager) (now : ℚ) (l : List PoopInstance) :
    (agedAlerts sm now l).filterMap Alert.newPoopId = [] := by
  unfold agedAlerts
  induction l with
  | nil => rfl
  | cons p rest ih =>
    simp only [List.filterMap_cons]
    split_ifs with h
    · simpa [List.filterMap_cons, Alert.newPoopId] using ih
    · exact ih

lemma agedAlerts_cleanupCount (sm : StateManager) (now : ℚ) (l : List PoopInstance) :
    (agedAlerts sm now l).filterMap Alert.cleanupCount = [] := by
  unfold agedAlerts
  induction l with
  | nil => rfl
  | cons p rest ih =>
    simp only [List.filterMap_cons]
    split_ifs with h
    · simpa [List.filterMap_cons, Alert.cleanupCount] using ih
    · exact ih

lemma cleanup_list_newPoopId (sm : StateManager) (c : Nat) :
    (if sm.alert_cleanup then
        if prevCleaned sm < c then [Alert.cleanup (c - prevCleaned sm)] else []
      else []).filterMap Alert.newPoopId = [] := by
  split_ifs <;> simp [Alert.newPoopId]

lemma new_list_cleanupCount (b : Bool) (ids : List Nat) :
    (if b then ids.map Alert.new_poop else []).filterMap Alert.cleanupCount = [] := by
  split_ifs
  · exact map_new_poop_cleanupCount ids
  · rfl

end StateManager

/-! ## Helper lemmas: the matching loop and the two per-deposit branches -/

namespace PoopTracker

lemma bestMatchAux_ne_none (thr : ℚ) (pbox : Box) :
    ∀ (l : List Detection) (idx : Nat) (matched : List Nat) (b : ℚ) (x : Nat × Detection),
      bestMatchAux thr pbox l idx matched b (some x) ≠ none := by
  intro l
  induction l with
  | nil => intro idx matched b x; simp [bestMatchAux]
  | cons d rest ih =>
    intro idx matched b x
    simp only [bestMatchAux]
    split_ifs <;> apply ih

lemma bestMatchAux_none_iff (thr : ℚ) (hthr : 0 ≤ thr) (pbox : Box) :
    ∀ (l : List Detection) (idx : Nat) (matched : List Nat),
      bestMatchAux thr pbox l idx matched 0 none = none ↔
        ∀ (j : Nat) (d : Detection), l.get? j = some d → (idx + j) ∉ matched →
          calculate_iou pbox d.bbox ≤ thr := by
  intro l
  induction l with
  | nil => intro idx matched; simp [bestMatchAux]
  | cons d rest ih =>
    intro idx matched
    simp only [bestMatchAux]
    by_cases hm : idx ∈ matched
    · rw [if_pos hm, ih (idx + 1) matched]
      constructor
      · intro h j dd hj hnm
        cases j with
        | zero => exact absurd hm (by simpa using hnm)
        | succ k =>
          have e : idx + 1 + k = idx + (k + 1) := by omega
          exact h k dd (by simpa using hj) (by rw [e]; exact hnm)
      · intro h j dd hj hnm
        have e : idx + 1 + j = idx + (j + 1) := by omega
        exact h (j + 1) dd (by simpa using hj) (by rw [← e]; exact hnm)
    · rw [if_neg hm]
      by_cases hc : (0 : ℚ) < calculate_iou pbox d.bbox ∧ thr < calculate_iou pbox d.bbox
      · rw [if_pos hc]
        constructor
        · intro h
          exact absurd h (bestMatchAux_ne_none thr pbox rest (idx + 1) matched _ _)
        · intro h
          exfalso
          have h0 := h 0 d (by simp) (by simpa using hm)
          exact absurd h0 (not_le.mpr hc.2)
      · rw [if_neg hc]
        rw [ih (idx + 1) matched]
        constructor
        · intro h j dd hj hnm
          cases j with
          | zero =>
            simp only [List.get?] at hj
            cases hj
            by_contra hlt
            exact hc ⟨lt_of_le_of_lt hthr (not_le.mp hlt), not_le.mp hlt⟩
          | succ k =>
            have e : idx + 1 + k = idx + (k + 1) := by omega
            exact h k dd (by simpa using hj) (by rw [e]; exact hnm)
        · intro h j dd hj hnm
          have e : idx + 1 + j = idx + (j + 1) := by omega
          exact h (j + 1) dd (by simpa using hj) (by rw [← e]; exact hnm)

lemma bestMatch_eq_none_iff (thr : ℚ) (hthr : 0 ≤ thr) (pbox : Box)
    (dets : List Detection) (matched : List Nat) :
    bestMatch thr pbox dets matched = none ↔
      ∀ (j : Nat) (d : Detection), dets.get? j = some d → j ∉ matched →
        calculate_iou pbox d.bbox ≤ thr := by
  have h := bestMatchAux_none_iff thr hthr pbox dets 0 matched
  simpa [bestMatch] using h

lemma bestMatch_ne_none_iff (thr : ℚ) (hthr : 0 ≤ thr) (pbox : Box)
    (dets : List Detection) (matched : List Nat) :
    bestMatch thr pbox dets matched ≠ none ↔
      ∃ (j : Nat) (d : Detection), dets.get? j = some d ∧ j ∉ matched ∧
        thr < calculate_iou pbox d.bbox := by
  rw [ne_eq, bestMatch_eq_none_iff thr hthr]
  push_neg
  rfl

lemma calculate_iou_zero_box (b : Box) (h : 0 < b.x1) :
    calculate_iou ⟨0, 0, 0, 0⟩ b = 0 := by
  simp only [calculate_iou]
  have hx : min (0 : ℚ) b.x2 < max (0 : ℚ) b.x1 :=
    lt_of_le_of_lt (min_le_left _ _) (lt_of_lt_of_le h (le_max_right _ _))
  rw [if_pos (Or.inl hx)]

lemma matchedUpdate_fields (now : Nat) (p : PoopInstance) (d : Detection) :
    (matchedUpdate now p d).1.bbox = d.bbox
    ∧ (matchedUpdate now p d).1.location = d.center
    ∧ (matchedUpdate now p d).1.last_seen = now
    ∧ (matchedUpdate now p d).1.missing_frames = 0
    ∧ (matchedUpdate now p d).1.cleanup_candidate_frames = 0
    ∧ (matchedUpdate now p d).1.id = p.id := by
  unfold matchedUpdate
  split_ifs <;> simp

lemma matchedUpdate_pending (now : Nat) (p : PoopInstance) (d : Detection)
    (h : p.status = .pending) :
    (matchedUpdate now p d).1.status = .active
    ∧ (matchedUpdate now p d).2
        = [{ kind := .poop_confirmed, id := p.id, location := d.center }] := by
  unfold matchedUpdate
  rw [if_pos h]
  exact ⟨rfl, rfl⟩

lemma matchedUpdate_nonpending (now : Nat) (p : PoopInstance) (d : Detection)
    (h : p.status ≠ .pending) :
    (matchedUpdate now p d).1.status = p.status ∧ (matchedUpdate now p d).2 = [] := by
  unfold matchedUpdate
  rw [if_neg h]
  exact ⟨rfl, rfl⟩

lemma unmatchedUpdate_missing (confirm : Nat) (persons : List Detection)
    (p : PoopInstance) :
    (unmatchedUpdate confirm persons p).1.missing_frames = p.missing_frames + 1
    ∧ (unmatchedUpdate confirm persons p).1.id = p.id := by
  simp only [unmatchedUpdate]
  split_ifs <;> simp

lemma unmatchedUpdate_nearby_counter (confirm : Nat) (persons : List Detection)
    (p : PoopInstance) (h : is_human_nearby p persons = true) :
    (unmatchedUpdate confirm persons p).1.cleanup_candidate_frames
      = p.cleanup_candidate_frames + 1 := by
  simp only [unmatchedUpdate, h]
  split_ifs <;> simp

lemma unmatchedUpdate_far (confirm : Nat) (persons : List Detection)
    (p : PoopInstance) (h : is_human_nearby p persons = false) :
    (unmatchedUpdate confirm persons p).1.cleanup_candidate_frames = 0
    ∧ (unmatchedUpdate confirm persons p).1.status = p.status
    ∧ (unmatchedUpdate confirm persons p).2.1 = []
    ∧ (unmatchedUpdate confirm persons p).2.2 = 0 := by
  simp only [unmatchedUpdate, h]
  exact ⟨rfl, rfl, rfl, rfl⟩

lemma unmatchedUpdate_cleaned_iff (confirm : Nat) (persons : List Detection)
    (p : PoopInstance) :
    ((unmatchedUpdate confirm persons p).1.status = Status.cleaned
      ∧ (unmatchedUpdate confirm persons p).2.1
          = [{ kind := .poop_cleaned, id := p.id, location := p.location }]
      ∧ (unmatchedUpdate confirm persons p).2.2 = 1)
    ↔ (is_human_nearby p persons = true ∧ confirm ≤ p.cleanup_candidate_frames + 1) := by
  simp only [unmatchedUpdate]
  split_ifs with hn hc <;> simp_all

lemma unmatchedUpdate_no_clean (confirm : Nat) (persons : List Detection)
    (p : PoopInstance)
    (h : ¬(is_human_nearby p persons = true ∧ confirm ≤ p.cleanup_candidate_frames + 1)) :
    (unmatchedUpdate confirm persons p).1.status = p.status
    ∧ (unmatchedUpdate confirm persons p).2.1 = []
    ∧ (unmatchedUpdate confirm persons p).2.2 = 0 := by
  simp only [unmatchedUpdate]
  split_ifs with hn hc
  · exact absurd ⟨hn, by simpa using hc⟩ h
  · exact ⟨rfl, rfl, rfl⟩
  · exact ⟨rfl, rfl, rfl⟩

lemma unmatchedUpdate_status_or (confirm : Nat) (persons : List Detection)
    (p : PoopInstance) :
    (unmatchedUpdate confirm persons p).1.status = p.status
    ∨ (unmatchedUpdate confirm persons p).1.status = Status.cleaned := by
  simp only [unmatchedUpdate]
  split_ifs <;> simp

lemma unmatchedUpdate_event_kinds (confirm : Nat) (persons : List Detection)
    (p : PoopInstance) :
    ∀ e ∈ (unmatchedUpdate confirm persons p).2.1, e.kind = EventKind.poop_cleaned := by
  simp only [unmatchedUpdate]
  split_ifs <;> simp

lemma is_human_nearby_iff (p : PoopInstance) (persons : List Detection) :
    is_human_nearby p persons = true ↔
      ∃ person ∈ persons,
        (p.location.1 - person.center.1) ^ 2 + (p.location.2 - person.center.2) ^ 2
          < 100 ^ 2 := by
  simp [is_human_nearby]

lemma update_not_cleaned (cfg : TrackerConfig) (st : TrackerState) (now : Nat)
    (dets : List Detection) (pes : List (ℚ × ℚ)) :
    ∀ q ∈ (update cfg st now dets pes).1.active_poops, q.status ≠ Status.cleaned := by
  intro q hq
  simp only [update] at hq
  rw [List.mem_filter] at hq
  have h := hq.2
  simp only [keepPoop, Bool.decide_and, Bool.and_eq_true, decide_eq_true_eq] at h
  exact h.1

lemma createPendings_mem :
    ∀ (locs : List (ℚ × ℚ)) (now next_id : Nat) (q : PoopInstance),
      q ∈ createPendings now locs next_id →
        q.status = Status.pending ∧ q.bbox = ⟨0, 0, 0, 0⟩
        ∧ q.missing_frames = 0 ∧ q.cleanup_candidate_frames = 0 := by
  intro locs
  induction locs with
  | nil => intro now nid q hq; simp [createPendings] at hq
  | cons l rest ih =>
    intro now nid q hq
    simp only [createPendings, List.mem_cons] at hq
    rcases hq with h | h
    · subst h; exact ⟨rfl, rfl, rfl, rfl⟩
    · exact ih now (nid + 1) q h

lemma createPendings_length :
    ∀ (locs : List (ℚ × ℚ)) (now next_id : Nat),
      (createPendings now locs next_id).length = locs.length := by
  intro locs
  induction locs with
  | nil => intro now nid; rfl
  | cons l rest ih =>
    intro now nid
    simp [createPendings, ih now (nid + 1)]

lemma matchedUpdate_event_kinds (now : Nat) (p : PoopInstance) (d : Detection) :
    ∀ e ∈ (matchedUpdate now p d).2, e.kind = EventKind.poop_confirmed := by
  unfold matchedUpdate
  split_ifs <;> simp

lemma processPoops_event_kinds (thr : ℚ) (confirm now : Nat)
    (poopDets persons : List Detection) :
    ∀ (ps : List PoopInstance) (matched : List Nat),
      ∀ e ∈ (processPoops thr confirm now poopDets persons ps matched).2.2.1,
        e.kind = EventKind.poop_confirmed ∨ e.kind = EventKind.poop_cleaned := by
  intro ps
  induction ps with
  | nil => intro matched e he; simp [processPoops] at he
  | cons p rest ih =>
    intro matched e he
    cases hbm : bestMatch thr p.bbox poopDets matched with
    | some pr =>
      obtain ⟨i, d⟩ := pr
      simp only [processPoops, hbm, List.mem_append] at he
      rcases he with he | he
      · exact Or.inl (matchedUpdate_event_kinds now p d e he)
      · exact ih (i :: matched) e he
    | none =>
      simp only [processPoops, hbm, List.mem_append] at he
      rcases he with he | he
      · exact Or.inr (unmatchedUpdate_event_kinds confirm persons p e he)
      · exact ih matched e he

lemma createPoops_events (now : Nat) :
    ∀ (l : List Detection) (idx : Nat) (matched : List Nat) (next_id : Nat),
      (createPoops now l idx matched next_id).2.1
        = (createPoops now l idx matched next_id).1.map fun q =>
            { kind := .poop_detected, id := q.id, location := q.location,
              bbox := some q.bbox } := by
  intro l
  induction l with
  | nil => intro idx matched nid; rfl
  | cons d rest ih =>
    intro idx matched nid
    simp only [createPoops]
    split_ifs with hm
    · exact ih (idx + 1) matched nid
    · simp [ih (idx + 1) matched (nid + 1)]

lemma createPoops_status (now : Nat) :
    ∀ (l : List Detection) (idx : Nat) (matched : List Nat) (next_id : Nat),
      ∀ q ∈ (createPoops now l idx matched next_id).1,
        q.status = Status.active ∧ q.missing_frames = 0
        ∧ q.cleanup_candidate_frames = 0 := by
  intro l
  induction l with
  | nil => intro idx matched nid q hq; simp [createPoops] at hq
  | cons d rest ih =>
    intro idx matched nid q hq
    simp only [createPoops] at hq
    split_ifs at hq with hm
    · exact ih (idx + 1) matched nid q hq
    · rcases List.mem_cons.mp hq with h | h
      · subst h; exact ⟨rfl, rfl, rfl⟩
      · exact ih (idx + 1) matched (nid + 1) q h

lemma createPoops_count (now : Nat) :
    ∀ (l : List Detection) (idx : Nat) (matched : List Nat) (next_id : Nat),
      (createPoops now l idx matched next_id).2.2
        = (createPoops now l idx matched next_id).1.length := by
  intro l
  induction l with
  | nil => intro idx matched nid; rfl
  | cons d rest ih =>
    intro idx matched nid
    simp only [createPoops]
    split_ifs with hm
    · exact ih (idx + 1) matched nid
    · simp [ih (idx + 1) matched (nid + 1)]

lemma createPoops_length_unclaimed (now : Nat) :
    ∀ (l : List Detection) (idx : Nat) (matched : List Nat) (next_id : Nat),
      (createPoops now l idx matched next_id).1.length
        = ((List.enumFrom idx l).filter fun pr => decide (pr.1 ∉ matched)).length := by
  intro l
  induction l with
  | nil => intro idx matched nid; rfl
  | cons d rest ih =>
    intro idx matched nid
    have hcons : List.enumFrom idx (d :: rest) = (idx, d) :: List.enumFrom (idx + 1) rest := rfl
    rw [hcons]
    simp only [createPoops, List.filter]
    split_ifs with hm
    · rw [ih (idx + 1) matched nid]
      simp [hm]
    · simp only [List.length_cons]
      rw [ih (idx + 1) matched (nid + 1)]
      simp [hm]

lemma matchedUpdate_rank (now : Nat) (p : PoopInstance) (d : Detection) :
    p.status.rank ≤ (matchedUpdate now p d).1.status.rank := by
  unfold matchedUpdate
  split_ifs with h
  · rw [h]
    simp [Status.rank]
  · exact Nat.le_refl _

lemma unmatchedUpdate_rank (confirm : Nat) (persons : List Detection) (p : PoopInstance) :
    p.status.rank ≤ (unmatchedUpdate confirm persons p).1.status.rank := by
  rcases unmatchedUpdate_status_or confirm persons p with h | h
  · rw [h]
  · rw [h]
    cases p.status <;> simp [Status.rank]

lemma processPoops_forall₂ (thr : ℚ) (confirm now : Nat)
    (poopDets persons : List Detection) :
    ∀ (ps : List PoopInstance) (matched : List Nat),
      List.Forall₂ (fun p q => p.id = q.id ∧ p.status.rank ≤ q.status.rank)
        ps (processPoops thr confirm now poopDets persons ps matched).1 := by
  intro ps
  induction ps with
  | nil => intro matched; simp [processPoops]
  | cons p rest ih =>
    intro matched
    cases hbm : bestMatch thr p.bbox poopDets matched with
    | some pr =>
      obtain ⟨i, d⟩ := pr
      simp only [processPoops, hbm]
      exact List.Forall₂.cons
        ⟨(matchedUpdate_fields now p d).2.2.2.2.2.symm, matchedUpdate_rank now p d⟩
        (ih (i :: matched))
    | none =>
      simp only [processPoops, hbm]
      exact List.Forall₂.cons
        ⟨(unmatchedUpdate_missing confirm persons p).2.symm,
          unmatchedUpdate_rank confirm persons p⟩
        (ih matched)

lemma createPoops_events_kinds (now : Nat) (l : List Detection) (idx : Nat)
    (matched : List Nat) (next_id : Nat) :
    ∀ e ∈ (createPoops now l idx matched next_id).2.1,
      e.kind = EventKind.poop_detected := by
  rw [createPoops_events now l idx matched next_id]
  intro e he
  obtain ⟨q, _, rfl⟩ := List.mem_map.mp he
  rfl

lemma filter_detected_append (evs1 evs2 : List Event)
    (h1 : ∀ e ∈ evs1, e.kind = EventKind.poop_confirmed ∨ e.kind = EventKind.poop_cleaned)
    (h2 : ∀ e ∈ evs2, e.kind = EventKind.poop_detected) :
    ((evs1 ++ evs2).filter fun e => e.kind == EventKind.poop_detected).length
      = evs2.length := by
  rw [List.filter_append]
  have g1 : evs1.filter (fun e => e.kind == EventKind.poop_detected) = [] := by
    rw [List.filter_eq_nil_iff]
    intro e he
    rcases h1 e he with h | h <;> simp [h]
  have g2 : evs2.filter (fun e => e.kind == EventKind.poop_detected) = evs2 := by
    rw [List.filter_eq_self]
    intro e he
    simp [h2 e he]
  rw [g1, g2]
  simp

lemma updateCore_detected_count (cfg : TrackerConfig) (st : TrackerState) (now : Nat)
    (dets : List Detection) (pes : List (ℚ × ℚ)) :
    ((updateCore cfg st now dets pes).2.1.filter
        fun e => e.kind == EventKind.poop_detected).length
      = (updateCore cfg st now dets pes).2.2.2 := by
  simp only [updateCore]
  rw [filter_detected_append]
  · rw [createPoops_events now, List.length_map, ← createPoops_count now]
  · exact processPoops_event_kinds _ _ _ _ _ _ _
  · exact createPoops_events_kinds _ _ _ _ _

lemma createPendings_keep (stale : Nat) (h : 0 < stale) (now : Nat)
    (locs : List (ℚ × ℚ)) (next_id : Nat) :
    ∀ q ∈ createPendings now locs next_id, keepPoop stale q = true := by
  intro q hq
  have hm := createPendings_mem locs now next_id q hq
  simp [keepPoop, hm.1, hm.2.2.1, h]

end PoopTracker

/-! ## Helper lemmas: IoU algebra (claim C9) -/

namespace PoopTracker

lemma calculate_iou_comm (a b : Box) : calculate_iou a b = calculate_iou b a := by
  simp only [calculate_iou]
  rw [max_comm b.x1 a.x1, max_comm b.y1 a.y1, min_comm b.x2 a.x2, min_comm b.y2 a.y2,
    add_comm ((b.x2 - b.x1) * (b.y2 - b.y1)) ((a.x2 - a.x1) * (a.y2 - a.y1))]

lemma calculate_iou_self (a : Box) (hw : 0 < a.x2 - a.x1) (hh : 0 < a.y2 - a.y1) :
    calculate_iou a a = 1 := by
  simp only [calculate_iou, max_self, min_self]
  have h1 : ¬(a.x2 < a.x1 ∨ a.y2 < a.y1) := by
    push_neg
    constructor <;> linarith
  rw [if_neg h1]
  have h2 : (a.x2 - a.x1) * (a.y2 - a.y1) + (a.x2 - a.x1) * (a.y2 - a.y1)
      - (a.x2 - a.x1) * (a.y2 - a.y1) = (a.x2 - a.x1) * (a.y2 - a.y1) := by ring
  rw [h2, if_pos (by positivity)]
  exact div_self (by positivity)

lemma calculate_iou_eq_zero_of_sep (a b : Box)
    (h : a.x2 ≤ b.x1 ∨ b.x2 ≤ a.x1 ∨ a.y2 ≤ b.y1 ∨ b.y2 ≤ a.y1) :
    calculate_iou a b = 0 := by
  simp only [calculate_iou]
  by_cases hc : min a.x2 b.x2 < max a.x1 b.x1 ∨ min a.y2 b.y2 < max a.y1 b.y1
  · rw [if_pos hc]
  · rw [if_neg hc]
    push_neg at hc
    obtain ⟨hx, hy⟩ := hc
    have hxa : min a.x2 b.x2 ≤ a.x2 := min_le_left _ _
    have hxb : min a.x2 b.x2 ≤ b.x2 := min_le_right _ _
    have hxa1 : a.x1 ≤ max a.x1 b.x1 := le_max_left _ _
    have hxb1 : b.x1 ≤ max a.x1 b.x1 := le_max_right _ _
    have hya : min a.y2 b.y2 ≤ a.y2 := min_le_left _ _
    have hyb : min a.y2 b.y2 ≤ b.y2 := min_le_right _ _
    have hya1 : a.y1 ≤ max a.y1 b.y1 := le_max_left _ _
    have hyb1 : b.y1 ≤ max a.y1 b.y1 := le_max_right _ _
    have hzero : (min a.x2 b.x2 - max a.x1 b.x1) * (min a.y2 b.y2 - max a.y1 b.y1) = 0 := by
      rcases h with h | h | h | h
      · have hx0 : min a.x2 b.x2 - max a.x1 b.x1 = 0 := by linarith
        rw [hx0, zero_mul]
      · have hx0 : min a.x2 b.x2 - max a.x1 b.x1 = 0 := by linarith
        rw [hx0, zero_mul]
      · have hy0 : min a.y2 b.y2 - max a.y1 b.y1 = 0 := by linarith
        rw [hy0, mul_zero]
      · have hy0 : min a.y2 b.y2 - max a.y1 b.y1 = 0 := by linarith
        rw [hy0, mul_zero]
    rw [hzero]
    split_ifs <;> simp

lemma calculate_iou_eq_zero_of_union (a b : Box) (h : unionArea a b = 0) :
    calculate_iou a b = 0 := by
  simp only [calculate_iou]
  by_cases hc : min a.x2 b.x2 < max a.x1 b.x1 ∨ min a.y2 b.y2 < max a.y1 b.y1
  · rw [if_pos hc]
  · rw [if_neg hc]
    simp only [unionArea, boxArea, interArea, if_neg hc] at h
    have hu : (a.x2 - a.x1) * (a.y2 - a.y1) + (b.x2 - b.x1) * (b.y2 - b.y1)
        - (min a.x2 b.x2 - max a.x1 b.x1) * (min a.y2 b.y2 - max a.y1 b.y1) = 0 := by
      linarith
    rw [hu]
    simp

end PoopTracker

/-- C9: `_calculate_iou` is symmetric in its two boxes; the self-IoU of a
box with positive width and height (hence positive area) is 1; and the IoU
is 0 whenever the boxes are separated in some axis or the computed union
area is 0. -/
theorem C9_iou_algebraic_properties :
    (∀ a b : Box, PoopTracker.calculate_iou a b = PoopTracker.calculate_iou b a)
    ∧ (∀ a : Box, 0 < a.x2 - a.x1 → 0 < a.y2 - a.y1 → PoopTracker.calculate_iou a a = 1)
    ∧ (∀ a b : Box, (a.x2 ≤ b.x1 ∨ b.x2 ≤ a.x1 ∨ a.y2 ≤ b.y1 ∨ b.y2 ≤ a.y1) →
        PoopTracker.calculate_iou a b = 0)
    ∧ (∀ a b : Box, PoopTracker.unionArea a b = 0 → PoopTracker.calculate_iou a b = 0) :=
  ⟨PoopTracker.calculate_iou_comm, PoopTracker.calculate_iou_self,
    PoopTracker.calculate_iou_eq_zero_of_sep, PoopTracker.calculate_iou_eq_zero_of_union⟩

/-- C1: for a deposit left unmatched in a cycle, person proximity (some
person center within the 100-px radius, which is exactly what
`_is_human_nearby` tests) increments the cleanup-candidate counter by 1
and its absence resets the counter to 0; the deposit turns cleaned with a
`cleaned_count` increment of 1 and exactly one "poop_cleaned" notification
`{id, location}` precisely when proximity holds and the incremented counter
reaches `cleanup_confirm_frames` (so cleanup needs that many consecutive
unmatched-and-nearby cycles, any proximity break resetting the streak);
otherwise status, notification list and `cleaned_count` are untouched.
Cleaned deposits never survive the same call's prune, so the notification
cannot repeat. -/
theorem C1_cleanup_streak :
    (∀ (p : PoopInstance) (persons : List Detection),
      PoopTracker.is_human_nearby p persons = true ↔
        ∃ person ∈ persons,
          (p.location.1 - person.center.1) ^ 2 + (p.location.2 - person.center.2) ^ 2
            < 100 ^ 2)
    ∧ (∀ (confirm : Nat) (persons : List Detection) (p : PoopInstance),
        PoopTracker.is_human_nearby p persons = true →
          (PoopTracker.unmatchedUpdate confirm persons p).1.cleanup_candidate_frames
            = p.cleanup_candidate_frames + 1)
    ∧ (∀ (confirm : Nat) (persons : List Detection) (p : PoopInstance),
        PoopTracker.is_human_nearby p persons = false →
          (PoopTracker.unmatchedUpdate confirm persons p).1.cleanup_candidate_frames = 0)
    ∧ (∀ (confirm : Nat) (persons : List Detection) (p : PoopInstance),
        ((PoopTracker.unmatchedUpdate confirm persons p).1.status = Status.cleaned
          ∧ (PoopTracker.unmatchedUpdate confirm persons p).2.1
              = [{ kind := .poop_cleaned, id := p.id, location := p.location }]
          ∧ (PoopTracker.unmatchedUpdate confirm persons p).2.2 = 1)
        ↔ (PoopTracker.is_human_nearby p persons = true
            ∧ confirm ≤ p.cleanup_candidate_frames + 1))
    ∧ (∀ (confirm : Nat) (persons : List Detection) (p : PoopInstance),
        ¬(PoopTracker.is_human_nearby p persons = true
            ∧ confirm ≤ p.cleanup_candidate_frames + 1) →
          (PoopTracker.unmatchedUpdate confirm persons p).1.status = p.status
          ∧ (PoopTracker.unmatchedUpdate confirm persons p).2.1 = []
          ∧ (PoopTracker.unmatchedUpdate confirm persons p).2.2 = 0)
    ∧ (∀ (cfg : TrackerConfig) (st : TrackerState) (now : Nat)
        (dets : List Detection) (pes : List (ℚ × ℚ)),
        ∀ q ∈ (PoopTracker.update cfg st now dets pes).1.active_poops,
          q.status ≠ Status.cleaned) :=
  ⟨fun p persons => PoopTracker.is_human_nearby_iff p persons,
    fun confirm persons p h => PoopTracker.unmatchedUpdate_nearby_counter confirm persons p h,
    fun confirm persons p h => (PoopTracker.unmatchedUpdate_far confirm persons p h).1,
    fun confirm persons p => PoopTracker.unmatchedUpdate_cleaned_iff confirm persons p,
    fun confirm persons p h => PoopTracker.unmatchedUpdate_no_clean confirm persons p h,
    fun cfg st now dets pes => PoopTracker.update_not_cleaned cfg st now dets pes⟩

/-- C3: a deposit created from a behavioral event point carries the
dataclass-default bbox `(0,0,0,0)` and status pending; the IoU of that
degenerate box with any detection box whose `x1 > 0` and `y1 > 0` is 0, so
under any positive configured IoU threshold the matching loop never
returns a match for it against such detections, and the unmatched branch
never turns a pending deposit active. -/
theorem C3_event_deposit_never_promoted :
    (∀ (now next_id : Nat) (locs : List (ℚ × ℚ)),
      ∀ q ∈ PoopTracker.createPendings now locs next_id,
        q.bbox = (⟨0, 0, 0, 0⟩ : Box) ∧ q.status = Status.pending)
    ∧ (∀ b : Box, 0 < b.x1 → 0 < b.y1 →
        PoopTracker.calculate_iou ⟨0, 0, 0, 0⟩ b = 0)
    ∧ (∀ (thr : ℚ) (dets : List Detection) (matched : List Nat), 0 < thr →
        (∀ d ∈ dets, 0 < d.bbox.x1 ∧ 0 < d.bbox.y1) →
        PoopTracker.bestMatch thr ⟨0, 0, 0, 0⟩ dets matched = none)
    ∧ (∀ (confirm : Nat) (persons : List Detection) (p : PoopInstance),
        p.status = Status.pending →
          (PoopTracker.unmatchedUpdate confirm persons p).1.status ≠ Status.active) := by
  refine ⟨?_, ?_, ?_, ?_⟩
  · intro now next_id locs q hq
    have h := PoopTracker.createPendings_mem locs now next_id q hq
    exact ⟨h.2.1, h.1⟩
  · intro b hx _
    exact PoopTracker.calculate_iou_zero_box b hx
  · intro thr dets matched hthr hpos
    rw [PoopTracker.bestMatch_eq_none_iff thr (le_of_lt hthr)]
    intro j d hj _
    have hd : d ∈ dets := List.get?_mem hj
    rw [PoopTracker.calculate_iou_zero_box d.bbox (hpos d hd).1]
    exact le_of_lt hthr
  · intro confirm persons p hp
    rcases PoopTracker.unmatchedUpdate_status_or confirm persons p with h | h
    · rw [h, hp]; exact fun hc => Status.noConfusion hc
    · rw [h]; exact fun hc => Status.noConfusion hc

/-- C5: the matching loop finds a match for a deposit exactly when some
unclaimed deposit-class detection achieves IoU strictly above the
(nonnegative) configured threshold; on a match the deposit's box, location
and last_seen are refreshed and both counters reset to 0; a pending
deposit is promoted to active with exactly one "poop_confirmed"
notification `{id, location}`, a non-pending one keeps its status with no
notification; in `processPoops` the head deposit is processed by the
matched branch when a match exists and by the unmatched branch (which
never emits "poop_confirmed" and never yields status active from pending)
otherwise. -/
theorem C5_pending_promotion_on_match :
    (∀ (thr : ℚ) (pbox : Box) (dets : List Detection) (matched : List Nat), 0 ≤ thr →
      (PoopTracker.bestMatch thr pbox dets matched ≠ none ↔
        ∃ (j : Nat) (d : Detection), dets.get? j = some d ∧ j ∉ matched ∧
          thr < PoopTracker.calculate_iou pbox d.bbox))
    ∧ (∀ (now : Nat) (p : PoopInstance) (d : Detection),
        (PoopTracker.matchedUpdate now p d).1.bbox = d.bbox
        ∧ (PoopTracker.matchedUpdate now p d).1.location = d.center
        ∧ (PoopTracker.matchedUpdate now p d).1.last_seen = now
        ∧ (PoopTracker.matchedUpdate now p d).1.missing_frames = 0
        ∧ (PoopTracker.matchedUpdate now p d).1.cleanup_candidate_frames = 0
        ∧ (PoopTracker.matchedUpdate now p d).1.id = p.id)
    ∧ (∀ (now : Nat) (p : PoopInstance) (d : Detection), p.status = Status.pending →
        (PoopTracker.matchedUpdate now p d).1.status = Status.active
        ∧ (PoopTracker.matchedUpdate now p d).2
            = [{ kind := .poop_confirmed, id := p.id, location := d.center }])
    ∧ (∀ (now : Nat) (p : PoopInstance) (d : Detection), p.status ≠ Status.pending →
        (PoopTracker.matchedUpdate now p d).1.status = p.status
        ∧ (PoopTracker.matchedUpdate now p d).2 = [])
    ∧ (∀ (confirm : Nat) (persons : List Detection) (p : PoopInstance),
        ∀ e ∈ (PoopTracker.unmatchedUpdate confirm persons p).2.1,
          e.kind = EventKind.poop_cleaned)
    ∧ (∀ (thr : ℚ) (confirm now : Nat) (poopDets persons : List Detection)
        (p : PoopInstance) (rest : List PoopInstance) (matched : List Nat)
        (i : Nat) (d : Detection),
        PoopTracker.bestMatch thr p.bbox poopDets matched = some (i, d) →
          (PoopTracker.processPoops thr confirm now poopDets persons
              (p :: rest) matched).1.head?
            = some (PoopTracker.matchedUpdate now p d).1)
    ∧ (∀ (thr : ℚ) (confirm now : Nat) (poopDets persons : List Detection)
        (p : PoopInstance) (rest : List PoopInstance) (matched : List Nat),
        PoopTracker.bestMatch thr p.bbox poopDets matched = none →
          (PoopTracker.processPoops thr confirm now poopDets persons
              (p :: rest) matched).1.head?
            = some (PoopTracker.unmatchedUpdate confirm persons p).1) := by
  refine ⟨?_, ?_, ?_, ?_, ?_, ?_, ?_⟩
  · intro thr pbox dets matched hthr
    exact PoopTracker.bestMatch_ne_none_iff thr hthr pbox dets matched
  · intro now p d
    exact PoopTracker.matchedUpdate_fields now p d
  · intro now p d h
    exact PoopTracker.matchedUpdate_pending now p d h
  · intro now p d h
    exact PoopTracker.matchedUpdate_nonpending now p d h
  · intro confirm persons p
    exact PoopTracker.unmatchedUpdate_event_kinds confirm persons p
  · intro thr confirm now poopDets persons p rest matched i d h
    simp [PoopTracker.processPoops, h]
  · intro thr confirm now poopDets persons p rest matched h
    simp [PoopTracker.processPoops, h]

/-- C6: every poop detection left unclaimed by the matching step creates
exactly one new deposit (one per unclaimed index), each with
status=active, each emitting one "poop_detected" notification
`{id, location, bbox}`; and a full update call grows `total_deposits` by
exactly the number of "poop_detected" notifications it emits (one per such
detection). -/
theorem C6_direct_detection_creation :
    (∀ (now : Nat) (l : List Detection) (idx : Nat) (matched : List Nat) (next_id : Nat),
      ((PoopTracker.createPoops now l idx matched next_id).1.length
          = ((List.enumFrom idx l).filter fun pr => decide (pr.1 ∉ matched)).length)
      ∧ (∀ q ∈ (PoopTracker.createPoops now l idx matched next_id).1,
          q.status = Status.active)
      ∧ ((PoopTracker.createPoops now l idx matched next_id).2.1
          = (PoopTracker.createPoops now l idx matched next_id).1.map fun q =>
              { kind := EventKind.poop_detected, id := q.id, location := q.location,
                bbox := some q.bbox })
      ∧ ((PoopTracker.createPoops now l idx matched next_id).2.2
          = (PoopTracker.createPoops now l idx matched next_id).1.length))
    ∧ (∀ (cfg : TrackerConfig) (st : TrackerState) (now : Nat)
        (dets : List Detection) (pes : List (ℚ × ℚ)),
        (PoopTracker.update cfg st now dets pes).1.total_deposits
          = st.total_deposits
            + ((PoopTracker.update cfg st now dets pes).2.filter
                fun e => e.kind == EventKind.poop_detected).length) := by
  constructor
  · intro now l idx matched next_id
    exact ⟨PoopTracker.createPoops_length_unclaimed now l idx matched next_id,
      fun q hq => (PoopTracker.createPoops_status now l idx matched next_id q hq).1,
      PoopTracker.createPoops_events now l idx matched next_id,
      PoopTracker.createPoops_count now l idx matched next_id⟩
  · intro cfg st now dets pes
    have h := PoopTracker.updateCore_detected_count cfg st now dets pes
    simp only [PoopTracker.update]
    rw [h]

/-- C7: every behavioral event point creates exactly one pending deposit
(`n` points give `n` pending deposits, with no de-duplication by
location); the call's notifications and `total_deposits` are unaffected by
the event points; and (with a positive staleness threshold) the new
pendings all survive the same call's prune, appended after everything the
call would have kept without them. -/
theorem C7_event_point_creation :
    (∀ (now next_id : Nat) (locs : List (ℚ × ℚ)),
      (PoopTracker.createPendings now locs next_id).length = locs.length)
    ∧ (∀ (now next_id : Nat) (locs : List (ℚ × ℚ)),
        ∀ q ∈ PoopTracker.createPendings now locs next_id,
          q.status = Status.pending ∧ q.bbox = (⟨0, 0, 0, 0⟩ : Box))
    ∧ (∀ (cfg : TrackerConfig) (st : TrackerState) (now : Nat)
        (dets : List Detection) (pes : List (ℚ × ℚ)),
        (PoopTracker.update cfg st now dets pes).2
          = (PoopTracker.update cfg st now dets []).2)
    ∧ (∀ (cfg : TrackerConfig) (st : TrackerState) (now : Nat)
        (dets : List Detection) (pes : List (ℚ × ℚ)),
        (PoopTracker.update cfg st now dets pes).1.total_deposits
          = (PoopTracker.update cfg st now dets []).1.total_deposits)
    ∧ (∀ (cfg : TrackerConfig) (st : TrackerState) (now : Nat)
        (dets : List Detection) (pes : List (ℚ × ℚ)), 0 < cfg.stale_threshold →
        ∃ k, (PoopTracker.update cfg st now dets pes).1.active_poops
          = (PoopTracker.update cfg st now dets []).1.active_poops
            ++ PoopTracker.createPendings now pes k) := by
  refine ⟨?_, ?_, ?_, ?_, ?_⟩
  · intro now next_id locs
    exact PoopTracker.createPendings_length locs now next_id
  · intro now next_id locs q hq
    have h := PoopTracker.createPendings_mem locs now next_id q hq
    exact ⟨h.1, h.2.1⟩
  · intro cfg st now dets pes
    rfl
  · intro cfg st now dets pes
    rfl
  · intro cfg st now dets pes h
    refine ⟨st.next_id + (PoopTracker.updateCore cfg st now dets pes).2.2.2, ?_⟩
    simp only [PoopTracker.update, PoopTracker.updateCore, List.filter_append,
      PoopTracker.createPendings, List.filter_nil, List.append_nil]
    rw [List.filter_eq_self.mpr
      (PoopTracker.createPendings_keep cfg.stale_threshold h now pes _)]



/-- C2 refuted at a concrete input: the tracked deposit starts the call
pending, and one `update` call with a nearby person (and no poop-class
detection) emits a "poop_cleaned" notification for it and counts one
cleanup — the deposit moved directly from pending to cleaned, an edge the
claim rules out. -/
theorem C2_counterexample :
    c2st.active_poops.map (fun p => (p.id, p.status)) = [(0, Status.pending)]
    ∧ ((PoopTracker.updateCore c2cfg c2st 1 [c2person] []).1.map
        fun p => (p.id, p.status)) = [(0, Status.cleaned)]
    ∧ (PoopTracker.update c2cfg c2st 1 [c2person] []).2
        = [{ kind := .poop_cleaned, id := 0, location := (0, 0) }]
    ∧ (PoopTracker.update c2cfg c2st 1 [c2person] []).1.cleaned_count = 1 := by
  refine ⟨rfl, ?_, ?_, ?_⟩ <;>
    norm_num [PoopTracker.update, PoopTracker.updateCore, PoopTracker.processPoops,
      PoopTracker.bestMatch, PoopTracker.bestMatchAux, PoopTracker.unmatchedUpdate,
      PoopTracker.is_human_nearby, PoopTracker.createPoops, PoopTracker.createPendings,
      PoopTracker.keepPoop, c2cfg, c2st, c2dep, c2person, Detection.center,
      List.filter, decide_eq_true_eq]

/-- C2 amended: within one update cycle every tracked deposit's status
moves only forward in the order pending < active < cleaned (its id
preserved) — the realized edges being pending→active on a match and
pending→cleaned / active→cleaned in the cleanup branch, never any
reversal — and cleaned deposits never survive into the live set. -/
theorem C2_amended_forward_only :
    (∀ (thr : ℚ) (confirm now : Nat) (poopDets persons : List Detection)
        (ps : List PoopInstance) (matched : List Nat),
      List.Forall₂ (fun p q => p.id = q.id ∧ p.status.rank ≤ q.status.rank)
        ps (PoopTracker.processPoops thr confirm now poopDets persons ps matched).1)
    ∧ (∀ (cfg : TrackerConfig) (st : TrackerState) (now : Nat)
        (dets : List Detection) (pes : List (ℚ × ℚ)),
        ∀ q ∈ (PoopTracker.update cfg st now dets pes).1.active_poops,
          q.status ≠ Status.cleaned) :=
  ⟨fun thr confirm now poopDets persons ps matched =>
      PoopTracker.processPoops_forall₂ thr confirm now poopDets persons ps matched,
    fun cfg st now dets pes => PoopTracker.update_not_cleaned cfg st now dets pes⟩



/-- C4 refuted at a concrete input: after one empty frame the deposit's
missing-frame counter equals the staleness threshold 1 — it does not
*exceed* it — and its status is still active, yet the prune removes it
from the live set (silently, no notification).  Removal happens at
`missing_frames ≥ stale_threshold`, not only strictly beyond it. -/
theorem C4_counterexample :
    ((PoopTracker.updateCore c4cfg c4st 1 [] []).1.map fun p => p.missing_frames) = [1]
    ∧ ((PoopTracker.updateCore c4cfg c4st 1 [] []).1.map fun p => p.status)
        = [Status.active]
    ∧ c4cfg.stale_threshold = 1
    ∧ (PoopTracker.update c4cfg c4st 1 [] []).1.active_poops = []
    ∧ (PoopTracker.update c4cfg c4st 1 [] []).2 = [] := by
  refine ⟨?_, ?_, rfl, ?_, ?_⟩ <;>
    norm_num [PoopTracker.update, PoopTracker.updateCore, PoopTracker.processPoops,
      PoopTracker.bestMatch, PoopTracker.bestMatchAux, PoopTracker.unmatchedUpdate,
      PoopTracker.is_human_nearby, PoopTracker.createPoops, PoopTracker.createPendings,
      PoopTracker.keepPoop, c4cfg, c4st, c4dep, List.filter, decide_eq_true_eq]

/-- C4 amended: the prune keeps a deposit of the cycle's full pre-prune
list exactly when its status is not cleaned and its missing-frame counter
has not *reached* the staleness threshold (removal fires at `≥`, including
equality); and the emitted notifications do not depend on the staleness
threshold at all, so staleness removal emits nothing. -/
theorem C4_amended_prune :
    (∀ (cfg : TrackerConfig) (st : TrackerState) (now : Nat)
        (dets : List Detection) (pes : List (ℚ × ℚ)) (p : PoopInstance),
      p ∈ (PoopTracker.updateCore cfg st now dets pes).1 →
        (p ∈ (PoopTracker.update cfg st now dets pes).1.active_poops ↔
          (p.status ≠ Status.cleaned ∧ p.missing_frames < cfg.stale_threshold)))
    ∧ (∀ (cfg : TrackerConfig) (st : TrackerState) (now : Nat)
        (dets : List Detection) (pes : List (ℚ × ℚ)) (a b : Nat),
        (PoopTracker.update { cfg with stale_threshold := a } st now dets pes).2
          = (PoopTracker.update { cfg with stale_threshold := b } st now dets pes).2) := by
  constructor
  · intro cfg st now dets pes p hp
    simp only [PoopTracker.update, List.mem_filter]
    constructor
    · intro h
      simpa [PoopTracker.keepPoop] using h.2
    · intro h
      exact ⟨hp, by simp [PoopTracker.keepPoop, h.1, h.2]⟩
  · intro cfg st now dets pes a b
    rfl

/-- The hypothesis-bearing conjuncts of `C4_amended_prune` instantiated at
the concrete C4 input: the pre-prune deposit of that cycle is judged by
the stated membership criterion. -/
theorem C4_amended_prune_witness :
    (PoopTracker.unmatchedUpdate c4cfg.cleanup_confirm_frames [] c4dep).1
        ∈ (PoopTracker.update c4cfg c4st 1 [] []).1.active_poops ↔
      ((PoopTracker.unmatchedUpdate c4cfg.cleanup_confirm_frames [] c4dep).1.status
          ≠ Status.cleaned
        ∧ (PoopTracker.unmatchedUpdate c4cfg.cleanup_confirm_frames [] c4dep).1.missing_frames
          < c4cfg.stale_threshold) :=
  C4_amended_prune.1 c4cfg c4st 1 [] []
    (PoopTracker.unmatchedUpdate c4cfg.cleanup_confirm_frames [] c4dep).1
    (by norm_num [PoopTracker.updateCore, PoopTracker.processPoops, PoopTracker.bestMatch,
      PoopTracker.bestMatchAux, PoopTracker.createPoops, PoopTracker.createPendings,
      c4cfg, c4st, List.filter])

/-- C8: `_is_pooping` accepts a track exactly when all three behavioral
gates hold — duration at least the configured stationary threshold,
average stepwise displacement at most the detector's movement threshold
(fixed to 5.0 px/sample by `__init__`), and average aspect ratio at most
the configured posture threshold; the points a processing cycle emits are
precisely the ground-contact locations (bottom-center of the latest box)
of the accepted tracks after the frame's track update; and a track with
fewer than 2 samples has the "movement unknown" sentinel (`⊤`) as its
average movement and is never accepted (treated as still moving). -/
theorem C8_behavioral_gates :
    (∀ (ed : EventDetector) (t : DogTrack),
      EventDetector.is_pooping ed t = true ↔
        (ed.stationary_threshold ≤ t.get_track_duration
          ∧ t.get_average_movement ≤ (ed.movement_threshold : WithTop ℝ)
          ∧ t.get_average_aspect_ratio ≤ ed.aspect_ratio_threshold))
    ∧ (∀ (s a : ℚ), (EventDetector.init s a).movement_threshold = 5)
    ∧ (∀ (ed : EventDetector) (tracks : List (Nat × DogTrack)),
        EventDetector.collectEvents ed tracks
          = (tracks.filter fun p => EventDetector.is_pooping ed p.2).map
              fun p => p.2.get_ground_location)
    ∧ (∀ (ed : EventDetector) (now : ℚ) (dets : List Detection),
        (EventDetector.process ed now dets).2
          = EventDetector.collectEvents
              (EventDetector.update_tracks ed now
                (dets.filter fun d => d.class_name == "dog"))
              (EventDetector.update_tracks ed now
                (dets.filter fun d => d.class_name == "dog")).dog_tracks)
    ∧ (∀ t : DogTrack, 2 ≤ t.positions.length ∨
        (t.get_average_movement = ⊤
          ∧ ∀ ed : EventDetector, EventDetector.is_pooping ed t = false)) := by
  refine ⟨?_, ?_, ?_, ?_, ?_⟩
  · intro ed t
    exact EventDetector.is_pooping_iff ed t
  · intro s a
    rfl
  · intro ed tracks
    exact EventDetector.collectEvents_eq ed tracks
  · intro ed now dets
    rfl
  · intro t
    by_cases hl : 2 ≤ t.positions.length
    · exact Or.inl hl
    · have h : t.positions.length < 2 := not_le.mp hl
      exact Or.inr ⟨EventDetector.get_average_movement_sentinel t h,
        fun ed => EventDetector.not_pooping_of_short ed t h⟩

/-- The inner conjuncts of `C9_iou_algebraic_properties` instantiated at
concrete boxes: its hypotheses are satisfiable. -/
theorem C9_iou_algebraic_properties_witness :
    PoopTracker.calculate_iou ⟨0, 0, 2, 2⟩ ⟨0, 0, 2, 2⟩ = 1
    ∧ PoopTracker.calculate_iou ⟨0, 0, 2, 2⟩ ⟨3, 0, 5, 2⟩ = 0
    ∧ PoopTracker.calculate_iou ⟨0, 0, 0, 5⟩ ⟨2, 1, 2, 4⟩ = 0 :=
  ⟨C9_iou_algebraic_properties.2.1 ⟨0, 0, 2, 2⟩ (by norm_num) (by norm_num),
    C9_iou_algebraic_properties.2.2.1 ⟨0, 0, 2, 2⟩ ⟨3, 0, 5, 2⟩ (by norm_num),
    C9_iou_algebraic_properties.2.2.2 ⟨0, 0, 0, 5⟩ ⟨2, 1, 2, 4⟩
      (by norm_num [PoopTracker.unionArea, PoopTracker.boxArea, PoopTracker.interArea])⟩



/-- C10 refuted at a concrete input: with the new-deposit alert configured
on, a snapshot containing deposit id 0 (in its pending list) that is
absent from the previously-seen id set yields *no* alert, and the id is
not added to the seen set — `StateManager.update` only scans the
snapshot's active list, not the whole snapshot. -/
theorem C10_counterexample :
    c10snap.pending_poops.map (fun p => p.id) = [0]
    ∧ (0 : Nat) ∉ c10sm.known_poop_ids
    ∧ c10sm.alert_new_poop = true
    ∧ (StateManager.update c10sm 0 c10snap).2 = []
    ∧ (StateManager.update c10sm 0 c10snap).1.known_poop_ids = [] := by
  refine ⟨rfl, by simp [c10sm], rfl, ?_, ?_⟩ <;>
    simp [StateManager.update, StateManager.newIds, StateManager.prevCleaned,
      StateManager.agedAlerts, c10sm, c10snap]

/-- C10 amended: on every aggregator update call, when the new-deposit
alert is configured on, one "new deposit" alert fires per id present in
the snapshot's *active* list (not the whole snapshot) and absent from the
previously-seen id set, and exactly those ids are then added to that set
(nothing happens to either when configured off); when the cleanup alert is
configured on and `cleaned_count` increased since the last call, exactly
one cleanup alert carrying the positive delta fires. -/
theorem C10_amended_alert_deltas :
    (∀ (sm : StateManager) (now : ℚ) (ts : PoopTracker.Snapshot),
      sm.alert_new_poop = true →
        ((StateManager.update sm now ts).2.filterMap Alert.newPoopId
            = ((ts.active_poops.map fun p => p.id).dedup.filter
                fun i => decide (i ∉ sm.known_poop_ids))
          ∧ (StateManager.update sm now ts).1.known_poop_ids
            = sm.known_poop_ids
              ++ ((ts.active_poops.map fun p => p.id).dedup.filter
                  fun i => decide (i ∉ sm.known_poop_ids))))
    ∧ (∀ (sm : StateManager) (now : ℚ) (ts : PoopTracker.Snapshot),
        sm.alert_new_poop = false →
          ((StateManager.update sm now ts).2.filterMap Alert.newPoopId = []
            ∧ (StateManager.update sm now ts).1.known_poop_ids = sm.known_poop_ids))
    ∧ (∀ (sm : StateManager) (now : ℚ) (ts : PoopTracker.Snapshot),
        sm.alert_cleanup = true →
          (StateManager.update sm now ts).2.filterMap Alert.cleanupCount
            = (if StateManager.prevCleaned sm < ts.cleaned_count
                then [ts.cleaned_count - StateManager.prevCleaned sm] else []))
    ∧ (∀ (sm : StateManager) (now : ℚ) (ts : PoopTracker.Snapshot),
        sm.alert_cleanup = false →
          (StateManager.update sm now ts).2.filterMap Alert.cleanupCount = []) := by
  refine ⟨?_, ?_, ?_, ?_⟩
  · intro sm now ts h
    constructor
    · simp only [StateManager.update, h, if_true, List.filterMap_append,
        StateManager.map_new_poop_newPoopId, StateManager.agedAlerts_newPoopId,
        StateManager.cleanup_list_newPoopId, List.append_nil, StateManager.newIds]
    · simp only [StateManager.update, h, if_true, StateManager.newIds]
  · intro sm now ts h
    constructor
    · simp only [StateManager.update, h, Bool.false_eq_true, if_false,
        List.filterMap_append, List.nil_append, StateManager.agedAlerts_newPoopId,
        StateManager.cleanup_list_newPoopId, List.append_nil]
    · simp only [StateManager.update, h, Bool.false_eq_true, if_false]
  · intro sm now ts h
    simp only [StateManager.update, h, if_true, List.filterMap_append,
      StateManager.new_list_cleanupCount, StateManager.agedAlerts_cleanupCount,
      List.append_nil, List.nil_append]
    split_ifs with hc <;> simp [Alert.cleanupCount]
  · intro sm now ts h
    simp only [StateManager.update, h, Bool.false_eq_true, if_false,
      List.filterMap_append, StateManager.new_list_cleanupCount,
      StateManager.agedAlerts_cleanupCount, List.append_nil, List.nil_append]

/-- The hypothesis-bearing first conjunct of `C10_amended_alert_deltas`
instantiated at a concrete call: one active deposit with a fresh id yields
exactly one new-deposit alert and the id is remembered. -/
theorem C10_amended_alert_deltas_witness :
    (StateManager.update c10sm 0
        { active_poops := [c4dep], pending_poops := [], cleaned_count := 0,
          total_deposits := 1 }).2.filterMap Alert.newPoopId = [0]
    ∧ (StateManager.update c10sm 0
        { active_poops := [c4dep], pending_poops := [], cleaned_count := 0,
          total_deposits := 1 }).1.known_poop_ids = [0] := by
  have h := C10_amended_alert_deltas.1 c10sm 0
    { active_poops := [c4dep], pending_poops := [], cleaned_count := 0,
      total_deposits := 1 } rfl
  refine ⟨?_, ?_⟩
  · rw [h.1]
    simp [c4dep, c10sm]
  · rw [h.2]
    simp [c4dep, c10sm]
